import Mathlib

/-
Verification of the `untypedconst` analysis pass (src/untypedconst.go).

The pass walks the AST of one compilation unit and flags places where an
untyped constant expression is used in a position expecting a value of a
named ("defined") scalar type.  We embed the pass shallowly:

* `Expr` models `ast.Expr` shapes the pass distinguishes.  A call node
  carries the result of resolving its callee (`typeutil.Callee`), which in
  Go is a pure lookup in the type info; a type conversion or an unresolved
  callee is `CalleeRes.other`, mirroring `typeutil.Callee` returning nil
  (or a non-Func, non-Builtin object) there.
* `Pass` models the read-only facts the pass consumes from `*analysis.Pass`:
  `TypesInfo.Types[expr].Value != nil` (`hasConstValue`),
  `TypesInfo.Types[expr].Type` (`inferredType`),
  `Pkg.Scope().Lookup(name).(*types.Const)` (`scopeLookup`, `none` when the
  lookup fails or the object is not a constant), `Pkg.Path()` (`pkgPath`),
  and the source positions `expr.Pos()` / `expr.End()` (`posOf` / `endOf`).
* `checkAndReport` returns the list of diagnostics it would emit through
  `pass.Report`, and the `process*` functions mirror the per-node dispatch.
-/

namespace Untypedconst

/-- Result of `typeutil.Callee(pass.TypesInfo, call)` as the pass consumes it:
a concrete function (`*types.Func`), a builtin (`*types.Builtin`, with its
name), or anything else — nil (e.g. a type conversion) or some other object. -/
inductive CalleeRes
  | func
  | builtin (name : String)
  | other
deriving DecidableEq, Repr

/-- Expression shapes distinguished by the pass.  `basicLit` carries the
literal text, `ident` the identifier name.  `keyValueExpr` is an `ast.Expr`
in Go (it can appear as a composite-literal element); together with
`otherExpr` (index, selector, slice, star, ...) it falls into the
classifier's default branch. -/
inductive Expr
  | basicLit (value : String)
  | ident (name : String)
  | unaryExpr (x : Expr)
  | binaryExpr (op : String) (x : Expr) (y : Expr)
  | callExpr (callee : CalleeRes) (args : List Expr)
  | parenExpr (x : Expr)
  | keyValueExpr (key : Expr) (value : Expr)
  | otherExpr

/-- The `*types.TypeName` object of a named type: its name, whether it is
exported, and the path of its owning package (`Obj().Exported()`,
`Obj().Pkg().Path()`). -/
structure TypeName where
  name : String
  exported : Bool
  pkgPath : String
deriving DecidableEq, Repr

/-- Whether `Underlying()` of a type is a `*types.Basic` (scalar primitive)
or something else (struct, slice, ...). -/
inductive Underlying
  | basic
  | nonBasic
deriving DecidableEq, Repr

/-- A `types.Type` as the pass inspects it: either a `*types.Named` with its
type-name object, its underlying kind and its display string (`String()`),
or any non-named type. -/
inductive GoType
  | named (obj : TypeName) (underlying : Underlying) (display : String)
  | other (display : String)
deriving DecidableEq, Repr

/-- A `*types.Const` object as the classifier inspects it: only
`cnst.Type().String()` is consulted. -/
structure ConstObj where
  typeString : String
deriving DecidableEq, Repr

/-- An `analysis.Diagnostic`: start position, end position, message. -/
structure Diagnostic where
  pos : Nat
  endPos : Nat
  message : String
deriving DecidableEq, Repr

/-- The read-only facts an `*analysis.Pass` supplies to the checker. -/
structure Pass where
  hasConstValue : Expr → Bool
  inferredType : Expr → GoType
  scopeLookup : String → Option ConstObj
  pkgPath : String
  posOf : Expr → Nat
  endOf : Expr → Nat

/-- Model of `strings.HasPrefix s pre`. -/
def strStartsWith (s pre : String) : Bool :=
  pre.data.isPrefixOf s.data

/-- The membership table `constIdentNames` (a `map[string]struct\x7b\x7d`
used only for membership tests). -/
def constIdentNames : List String :=
  ["true", "false", "iota"]

/-- The membership table `comparisonTokens`. -/
def comparisonTokens : List String :=
  ["==", "!=", "<", "<=", ">", ">="]

/-- The membership table `builtInsAboutComplex`. -/
def builtInsAboutComplex : List String :=
  ["complex", "real", "imag"]

/-- The loop `unwrapParens`: strips every enclosing `*ast.ParenExpr`. -/
def unwrapParens : Expr → Expr
  | .parenExpr x => unwrapParens x
  | e => e

mutual
/-- The classifier `isUntypedConstExpr`.  Precondition in Go: `expr` has a
constant value.  The Go function first runs `unwrapParens` and then switches
on the node's shape; since the only effect of unwrapping is to skip
`ParenExpr` wrappers, we equivalently recurse through the `parenExpr` case
(the equivalence with unwrap-then-switch is proved in the theorem for C9).
The `keyValueExpr` and `otherExpr` cases are the Go `default:` branch, which
logs and returns false. -/
def isUntypedConstExpr (pass : Pass) : Expr → Bool
  | .parenExpr x => isUntypedConstExpr pass x
  | .basicLit _ =>
      -- Naked basic literals are untyped const expr.
      true
  | .ident name =>
      -- `true`, `false` and `iota` are untyped const expr.
      if constIdentNames.contains name then true
      else
        -- Lookup the object associated with the ident and check its type.
        match pass.scopeLookup name with
        | some cnst => strStartsWith cnst.typeString "untyped"
        | none =>
            -- should be unreachable
            false
  | .unaryExpr x =>
      -- If an operand is untyped, entire expression is also untyped.
      isUntypedConstExpr pass x
  | .binaryExpr op x y =>
      -- A constant comparison always yields an untyped boolean constant.
      if comparisonTokens.contains op then true
      else
        -- Otherwise untyped iff both operands are untyped.
        isUntypedConstExpr pass x && isUntypedConstExpr pass y
  | .callExpr callee args =>
      -- Only a call of the builtins complex/real/imag with all-untyped
      -- arguments is untyped; all other calls (incl. conversions) are typed.
      match callee with
      | .builtin name =>
          if builtInsAboutComplex.contains name then
            isUntypedConstExprArgs pass args
          else false
      | _ => false
  | .keyValueExpr _ _ => false
  | .otherExpr => false

/-- The argument loop of the `CallExpr` case: `for _, arg := range e.Args`,
returning false at the first argument that is not untyped. -/
def isUntypedConstExprArgs (pass : Pass) : List Expr → Bool
  | [] => true
  | a :: rest => isUntypedConstExpr pass a && isUntypedConstExprArgs pass rest
end

mutual
/-- Number of `log.Printf` calls `isUntypedConstExpr` performs on a node,
mirroring Go evaluation order: only the `default:` branch (`keyValueExpr`,
`otherExpr`) logs; `&&` short-circuits, and the argument loop of the call
case returns at the first non-untyped argument. -/
def classifierLogCount (pass : Pass) : Expr → Nat
  | .parenExpr x => classifierLogCount pass x
  | .basicLit _ => 0
  | .ident _ =>
      -- Neither ident branch logs: the failed-lookup branch only carries a
      -- `should be unreachable` comment and returns false silently.
      0
  | .unaryExpr x => classifierLogCount pass x
  | .binaryExpr op x y =>
      if comparisonTokens.contains op then 0
      else if isUntypedConstExpr pass x then
        classifierLogCount pass x + classifierLogCount pass y
      else classifierLogCount pass x
  | .callExpr callee args =>
      match callee with
      | .builtin name =>
          if builtInsAboutComplex.contains name then
            classifierLogCountArgs pass args
          else 0
      | _ => 0
  | .keyValueExpr _ _ => 1
  | .otherExpr => 1

/-- Log count of the call-case argument loop, which stops after the first
non-untyped argument. -/
def classifierLogCountArgs (pass : Pass) : List Expr → Nat
  | [] => 0
  | a :: rest =>
      if isUntypedConstExpr pass a then
        classifierLogCount pass a + classifierLogCountArgs pass rest
      else classifierLogCount pass a
end

/-- Replace each occurrence of the verb `%q` in a character list by the
double-quoted argument. -/
def fillQAux (s : List Char) : List Char → List Char
  | [] => []
  | '%' :: 'q' :: rest => '"' :: (s ++ ('"' :: fillQAux s rest))
  | c :: rest => c :: fillQAux s rest

/-- Model of `fmt.Sprintf msgfmt arg` where `msgfmt` contains string verbs
`%q` (the only use the pass makes of Sprintf). -/
def sprintfQ (msgfmt arg : String) : String :=
  ⟨fillQAux arg.data msgfmt.data⟩

/-- The reporting policy `checkAndReport`: skip non-constant expressions,
skip typed expressions, skip non-named and non-basic-underlying inferred
types, and gate on visibility before emitting one diagnostic spanning the
expression.  Returns the diagnostics passed to `pass.Report`. -/
def checkAndReport (pass : Pass) (expr : Expr) (msgfmt : String) : List Diagnostic :=
  -- no problem if expr is not constant expression.
  if pass.hasConstValue expr = false then []
  -- no problem if expr is not untyped.
  else if isUntypedConstExpr pass expr = false then []
  else
    match pass.inferredType expr with
    | GoType.other _ => []
    | GoType.named obj u display =>
      match u with
      | Underlying.nonBasic => []
      | Underlying.basic =>
        -- report iff the type is *not* an external package private type
        if obj.exported || obj.pkgPath == pass.pkgPath then
          [{ pos := pass.posOf expr, endPos := pass.endOf expr,
             message := sprintfQ msgfmt display }]
        else []

/-- The `*ast.CallExpr` handler: check every argument, but only when
`typeutil.Callee` resolves to a concrete `*types.Func` (so nothing is
checked for type conversions, builtin calls or unresolved callees).  The
callee resolution is stored on the call node in this model; a non-call
argument cannot occur in Go (the parameter type is `*ast.CallExpr`). -/
def processCallExpr (pass : Pass) (call : Expr) : List Diagnostic :=
  match call with
  | .callExpr callee args =>
      match callee with
      | .func =>
          args.flatMap (fun arg =>
            checkAndReport pass arg "passing naked literal to parameter of defined type %q")
      | _ => []
  | _ => []

/-- The `*ast.ReturnStmt` handler, given the statement's result list. -/
def processReturnStmt (pass : Pass) (results : List Expr) : List Diagnostic :=
  results.flatMap (fun res =>
    checkAndReport pass res "returning naked literal as Defiend Type %q")

/-- The `*ast.SendStmt` handler, given the statement's sent value. -/
def processSendStmt (pass : Pass) (value : Expr) : List Diagnostic :=
  checkAndReport pass value "sending naked literal to channel of Defiend Type %q"

/-- The `*ast.CompositeLit` handler, given the literal's element list:
for a `key: value` element check key and value separately; otherwise check
the element itself. -/
def processCompositeLit (pass : Pass) (elts : List Expr) : List Diagnostic :=
  elts.flatMap (fun elt =>
    match elt with
    | .keyValueExpr k v =>
        checkAndReport pass k
          "using naked literal as composite literal\x27s element key of defined type %q" ++
        checkAndReport pass v
          "using naked literal as composite literal\x27s element value of defined type %q"
    | e =>
        checkAndReport pass e
          "using naked literal as composite literal\x27s element of defined type %q")

/-- The `*ast.IndexExpr` handler, given the node's `Index` sub-expression. -/
def processIndexExpr (pass : Pass) (index : Expr) : List Diagnostic :=
  checkAndReport pass index
    "using naked literal for indexing the value whose key type is defined type %q"

/-- Wrap an expression in `n` grouping parentheses (for the statement of
paren-invariance). -/
def wrapParens : Nat → Expr → Expr
  | 0, e => e
  | n + 1, e => .parenExpr (wrapParens n e)

/-- A pass with no facts, used as the base of the concrete scenarios. -/
def trivialPass : Pass :=
  { hasConstValue := fun _ => false
    inferredType := fun _ => GoType.other "invalid type"
    scopeLookup := fun _ => none
    pkgPath := "example.com/analyzed"
    posOf := fun _ => 0
    endOf := fun _ => 0 }

/-- The named type `Meters`, an exported defined type of the analyzed
package whose underlying type is an integer (a basic type). -/
def metersType : GoType :=
  GoType.named { name := "Meters", exported := true, pkgPath := "example.com/analyzed" }
    Underlying.basic "Meters"

/-- Scenario for C1: the literal `5` of the call `F(5)` has a constant
value, its inferred type is `Meters`, and it spans source offsets 10 to 11. -/
def passC1 : Pass :=
  { trivialPass with
    hasConstValue := fun e =>
      match e with
      | .basicLit "5" => true
      | _ => false
    inferredType := fun e =>
      match e with
      | .basicLit "5" => metersType
      | _ => GoType.other "invalid type"
    posOf := fun e =>
      match e with
      | .basicLit "5" => 10
      | _ => 0
    endOf := fun e =>
      match e with
      | .basicLit "5" => 11
      | _ => 0 }

/-- Scenario for the C4 counterexample: the identifier `localConst` has a
constant value (it names an untyped constant declared inside a function
body), but the package-level scope lookup does not find it. -/
def passC4 : Pass :=
  { trivialPass with
    hasConstValue := fun e =>
      match e with
      | .ident "localConst" => true
      | _ => false }

/-- Scenario for the C5 witness: the literal `0` has a constant value and
its inferred type is `meters`, an unexported named basic type of the
analyzed package itself. -/
def passC5 : Pass :=
  { trivialPass with
    hasConstValue := fun e =>
      match e with
      | .basicLit "0" => true
      | _ => false
    inferredType := fun e =>
      match e with
      | .basicLit "0" =>
          GoType.named { name := "meters", exported := false, pkgPath := "example.com/analyzed" }
            Underlying.basic "meters"
      | _ => GoType.other "invalid type" }

/-- Scenario for the C6 witness: every expression has a constant value and
an inferred named type `Config` whose underlying type is a struct (not a
basic type). -/
def passC6 : Pass :=
  { trivialPass with
    hasConstValue := fun _ => true
    inferredType := fun _ =>
      GoType.named { name := "Config", exported := true, pkgPath := "example.com/analyzed" }
        Underlying.nonBasic "Config" }

/-- Scenario for C8: the literals `1` and `2` of the composite literal
`[]Meters\x7b1, 2\x7d` both have constant values of inferred type `Meters`
and span offsets 20-21 and 23-24 respectively. -/
def passC8 : Pass :=
  { trivialPass with
    hasConstValue := fun e =>
      match e with
      | .basicLit "1" => true
      | .basicLit "2" => true
      | _ => false
    inferredType := fun e =>
      match e with
      | .basicLit "1" => metersType
      | .basicLit "2" => metersType
      | _ => GoType.other "invalid type"
    posOf := fun e =>
      match e with
      | .basicLit "1" => 20
      | .basicLit "2" => 23
      | _ => 0
    endOf := fun e =>
      match e with
      | .basicLit "1" => 21
      | .basicLit "2" => 24
      | _ => 0 }

/-- Scenario for the C10 witness: the identifier `localUntyped` names an
untyped constant declared inside a function body, so it has a constant
value and an inferred named basic type, but the package-level scope lookup
does not find it. -/
def passC10 : Pass :=
  { trivialPass with
    hasConstValue := fun e =>
      match e with
      | .ident "localUntyped" => true
      | _ => false
    inferredType := fun e =>
      match e with
      | .ident "localUntyped" => metersType
      | _ => GoType.other "invalid type" }

/-
Helper lemmas.
-/

/-- Membership in `comparisonTokens` spelt out. -/
theorem comparisonTokens_contains (op : String) :
    comparisonTokens.contains op =
      (op == "==" || op == "!=" || op == "<" || op == "<=" || op == ">" || op == ">=") := by
  simp only [comparisonTokens, List.contains, List.elem]
  cases op == "==" <;> cases op == "!=" <;> cases op == "<" <;>
    cases op == "<=" <;> cases op == ">" <;> cases op == ">=" <;> rfl

/-- Membership in `builtInsAboutComplex` spelt out. -/
theorem builtInsAboutComplex_contains (name : String) :
    builtInsAboutComplex.contains name =
      (name == "complex" || name == "real" || name == "imag") := by
  simp only [builtInsAboutComplex, List.contains, List.elem]
  cases name == "complex" <;> cases name == "real" <;> cases name == "imag" <;> rfl

/-- The argument loop agrees with `List.all`. -/
theorem isUntypedConstExprArgs_eq_all (pass : Pass) (args : List Expr) :
    isUntypedConstExprArgs pass args = args.all (fun arg => isUntypedConstExpr pass arg) := by
  induction args with
  | nil => rfl
  | cons a rest ih => simp [isUntypedConstExprArgs, ih]

/-- Classification is invariant under stripping parentheses with
`unwrapParens` (the classifier recurses through the `parenExpr` wrapper, so
stripping them first changes nothing). -/
theorem isUntypedConstExpr_unwrapParens (pass : Pass) :
    ∀ e : Expr, isUntypedConstExpr pass (unwrapParens e) = isUntypedConstExpr pass e
  | .parenExpr x => by
      have h : unwrapParens (Expr.parenExpr x) = unwrapParens x := rfl
      rw [h, isUntypedConstExpr_unwrapParens pass x]
      rfl
  | .basicLit _ => rfl
  | .ident _ => rfl
  | .unaryExpr _ => rfl
  | .binaryExpr _ _ _ => rfl
  | .callExpr _ _ => rfl
  | .keyValueExpr _ _ => rfl
  | .otherExpr => rfl

/-
Claims.
-/

/-- C1: calling a concrete function with the bare literal `5` whose
inferred type is the named scalar type `Meters` (underlying integer)
reports exactly one diagnostic, spanning exactly the literal (offsets 10 to
11), whose message is the call-argument template with its placeholder
filled by the display name `Meters`. -/
theorem c1_call_argument_scenario :
    processCallExpr passC1 (Expr.callExpr CalleeRes.func [Expr.basicLit "5"]) =
      [{ pos := 10, endPos := 11,
         message := "passing naked literal to parameter of defined type \"Meters\"" }] := rfl

/-- C2: a constant binary expression whose operator is one of the six
comparison operators is always classified untyped, regardless of either
operand; with any other operator it is untyped iff both operands are
untyped. -/
theorem c2_binary_operator_classification (pass : Pass) (op : String) (x y : Expr) :
    isUntypedConstExpr pass (Expr.binaryExpr op x y) =
      ((op == "==" || op == "!=" || op == "<" || op == "<=" || op == ">" || op == ">=") ||
        (isUntypedConstExpr pass x && isUntypedConstExpr pass y)) := by
  simp only [isUntypedConstExpr]
  rw [comparisonTokens_contains]
  cases h : (op == "==" || op == "!=" || op == "<" || op == "<=" || op == ">" || op == ">=") <;>
    simp [h]

/-- C3: a constant call expression is classified untyped iff the callee
resolves to one of the builtins `complex`, `real`, `imag` and every
argument is untyped; every other call (a concrete function, a type
conversion or any other callee) is classified not untyped. -/
theorem c3_call_classification (pass : Pass) (callee : CalleeRes) (args : List Expr) :
    isUntypedConstExpr pass (Expr.callExpr callee args) =
      ((match callee with
        | CalleeRes.builtin name => name == "complex" || name == "real" || name == "imag"
        | _ => false) &&
       args.all (fun arg => isUntypedConstExpr pass arg)) := by
  cases callee with
  | func => simp [isUntypedConstExpr]
  | builtin name =>
      simp only [isUntypedConstExpr]
      rw [builtInsAboutComplex_contains]
      cases h : (name == "complex" || name == "real" || name == "imag") <;>
        simp [h, isUntypedConstExprArgs_eq_all]
  | other => simp [isUntypedConstExpr]

/-- C4 (amended): a constant identifier other than `true`, `false`, `iota`
is resolved through the package-level scope and classified untyped iff the
resolved constant's type string has the `untyped` prefix; when resolution
to a constant fails the classifier returns not-untyped defensively and
performs no log call (the classifier stays total, surfacing no error). -/
theorem c4_ident_resolution (pass : Pass) (name : String)
    (h : constIdentNames.contains name = false) :
    (isUntypedConstExpr pass (Expr.ident name) =
      match pass.scopeLookup name with
      | some cnst => strStartsWith cnst.typeString "untyped"
      | none => false) ∧
    classifierLogCount pass (Expr.ident name) = 0 := by
  refine ⟨?_, rfl⟩
  simp at h
  simp [isUntypedConstExpr, h]

/-- C4 witness: the identifier `localConst` is not one of the keyword
constants and instantiates the amended claim. -/
theorem c4_ident_resolution_witness :
    constIdentNames.contains "localConst" = false ∧
    ((isUntypedConstExpr passC4 (Expr.ident "localConst") =
      match passC4.scopeLookup "localConst" with
      | some cnst => strStartsWith cnst.typeString "untyped"
      | none => false) ∧
     classifierLogCount passC4 (Expr.ident "localConst") = 0) :=
  ⟨rfl, c4_ident_resolution passC4 "localConst" rfl⟩

/-- C4 counterexample: for the constant-valued identifier `localConst`,
package-scope resolution fails and the classifier does return not-untyped,
but it performs zero log calls — refuting the claim's assertion that the
unexpected condition is logged (only the impossible-shape default branch of
the classifier logs). -/
theorem c4_lookup_failure_counterexample :
    passC4.hasConstValue (Expr.ident "localConst") = true ∧
    passC4.scopeLookup "localConst" = none ∧
    isUntypedConstExpr passC4 (Expr.ident "localConst") = false ∧
    classifierLogCount passC4 (Expr.ident "localConst") = 0 :=
  ⟨rfl, rfl, rfl, rfl⟩

/-- C5: for a candidate that passes the constant-value, untyped, named and
scalar-underlying checks, a diagnostic is emitted iff the named type is
exported or declared in the package currently analyzed; an unexported type
of a different package never reports, an unexported type of the analyzed
package still does. -/
theorem c5_visibility_gate (pass : Pass) (expr : Expr) (msgfmt : String)
    (obj : TypeName) (display : String)
    (h1 : pass.hasConstValue expr = true)
    (h2 : isUntypedConstExpr pass expr = true)
    (h3 : pass.inferredType expr = GoType.named obj Underlying.basic display) :
    (checkAndReport pass expr msgfmt ≠ [] ↔
      (obj.exported = true ∨ obj.pkgPath = pass.pkgPath)) := by
  have hstep : checkAndReport pass expr msgfmt =
      (if obj.exported || obj.pkgPath == pass.pkgPath then
        [{ pos := pass.posOf expr, endPos := pass.endOf expr,
           message := sprintfQ msgfmt display }]
      else []) := by
    simp [checkAndReport, h1, h2, h3]
  rw [hstep]
  cases hE : obj.exported <;> cases hP : obj.pkgPath == pass.pkgPath <;>
    simp_all [beq_iff_eq]

/-- C5 witness: the literal `0` with inferred type `meters`, an unexported
named basic type of the analyzed package itself. -/
theorem c5_visibility_gate_witness :
    (checkAndReport passC5 (Expr.basicLit "0")
        "using naked literal for indexing the value whose key type is defined type %q" ≠ [] ↔
      (({ name := "meters", exported := false,
          pkgPath := "example.com/analyzed" } : TypeName).exported = true ∨
       ({ name := "meters", exported := false,
          pkgPath := "example.com/analyzed" } : TypeName).pkgPath = passC5.pkgPath)) :=
  c5_visibility_gate passC5 (Expr.basicLit "0") _ _ _ rfl rfl rfl

/-- C6: a candidate whose inferred type is not a named type, or is a named
type whose underlying type is not a basic (scalar) type, never produces a
diagnostic. -/
theorem c6_skip_unnamed_or_nonscalar (pass : Pass) (expr : Expr) (msgfmt : String)
    (h : (∃ d, pass.inferredType expr = GoType.other d) ∨
         (∃ obj d, pass.inferredType expr = GoType.named obj Underlying.nonBasic d)) :
    checkAndReport pass expr msgfmt = [] := by
  by_cases h1 : pass.hasConstValue expr = false
  · simp [checkAndReport, h1]
  · by_cases h2 : isUntypedConstExpr pass expr = false
    · simp [checkAndReport, h1, h2]
    · rcases h with ⟨d, hd⟩ | ⟨obj, d, hd⟩ <;> simp [checkAndReport, h1, h2, hd]

/-- C6 witness: a constant literal whose inferred type is the named type
`Config` with a struct (non-basic) underlying type. -/
theorem c6_skip_unnamed_or_nonscalar_witness :
    checkAndReport passC6 (Expr.basicLit "1")
      "passing naked literal to parameter of defined type %q" = [] :=
  c6_skip_unnamed_or_nonscalar passC6 (Expr.basicLit "1") _ (Or.inr ⟨_, _, rfl⟩)

/-- C7: the call handler checks the arguments exactly when the callee
resolves to a concrete function; for a type conversion, a builtin call or
any other unresolved callee it checks nothing and produces no diagnostic
(so a literal inside a conversion is never flagged through the call site). -/
theorem c7_call_requires_concrete_function (pass : Pass) (callee : CalleeRes) (args : List Expr) :
    processCallExpr pass (Expr.callExpr callee args) =
      (if callee = CalleeRes.func then
        args.flatMap (fun arg =>
          checkAndReport pass arg "passing naked literal to parameter of defined type %q")
      else []) := by
  cases callee <;> simp [processCallExpr]

/-- C8: the composite literal with the two naked elements `1` and `2` of
type `Meters` produces exactly two diagnostics, one per element, both with
the composite-element template; in general a keyed element contributes its
key and its value as two independent candidates and a non-keyed element
contributes the element expression itself. -/
theorem c8_composite_literal_elements :
    (processCompositeLit passC8 [Expr.basicLit "1", Expr.basicLit "2"] =
      [{ pos := 20, endPos := 21,
         message := "using naked literal as composite literal\x27s element of defined type \"Meters\"" },
       { pos := 23, endPos := 24,
         message := "using naked literal as composite literal\x27s element of defined type \"Meters\"" }]) ∧
    (∀ (pass : Pass) (elt : Expr),
      processCompositeLit pass [elt] =
        match elt with
        | Expr.keyValueExpr k v =>
            checkAndReport pass k
              "using naked literal as composite literal\x27s element key of defined type %q" ++
            checkAndReport pass v
              "using naked literal as composite literal\x27s element value of defined type %q"
        | e =>
            checkAndReport pass e
              "using naked literal as composite literal\x27s element of defined type %q") := by
  constructor
  · rfl
  · intro pass elt
    cases elt <;> simp [processCompositeLit]

/-- C9: classification is invariant under grouping parentheses: wrapping an
expression in any number of parentheses does not change the classifier's
result, and stripping them with `unwrapParens` does not either. -/
theorem c9_paren_invariance (pass : Pass) (e : Expr) (n : Nat) :
    isUntypedConstExpr pass (wrapParens n e) = isUntypedConstExpr pass e ∧
    isUntypedConstExpr pass (unwrapParens e) = isUntypedConstExpr pass e := by
  refine ⟨?_, isUntypedConstExpr_unwrapParens pass e⟩
  induction n with
  | zero => rfl
  | succ n ih => simpa [wrapParens, isUntypedConstExpr] using ih

/-- C10: a constant identifier that is not `true`, `false` or `iota` and is
not found in the package-level scope (e.g. a constant declared inside a
function body) is classified not untyped and never produces a diagnostic,
whatever message template the site supplies. -/
theorem c10_local_const_not_reported (pass : Pass) (name : String) (msgfmt : String)
    (h1 : constIdentNames.contains name = false)
    (h2 : pass.scopeLookup name = none) :
    isUntypedConstExpr pass (Expr.ident name) = false ∧
    checkAndReport pass (Expr.ident name) msgfmt = [] := by
  have hu : isUntypedConstExpr pass (Expr.ident name) = false := by
    simp at h1
    simp [isUntypedConstExpr, h1, h2]
  refine ⟨hu, ?_⟩
  by_cases hc : pass.hasConstValue (Expr.ident name) = false <;>
    simp [checkAndReport, hc, hu]

/-- C10 witness: the identifier `localUntyped` names a function-local
untyped constant (constant value present, package-scope lookup fails). -/
theorem c10_local_const_not_reported_witness :
    isUntypedConstExpr passC10 (Expr.ident "localUntyped") = false ∧
    checkAndReport passC10 (Expr.ident "localUntyped")
      "passing naked literal to parameter of defined type %q" = [] :=
  c10_local_const_not_reported passC10 "localUntyped" _ rfl rfl

end Untypedconst
